import Mathlib

-- Shallow embedding of the analyzer repository: the pattern-matching engine
-- and result store of quantum_analyzer.py, the pattern loader, the fixer
-- registry of quantum_analyzer/fix, and the format-to-fstring rewrite engine
-- of quantum_analyzer/fix/format_to_fstring.py. External libraries (re,
-- libcst parsing, the file system) are abstracted as function parameters;
-- Python dicts are modelled as insertion-ordered association lists.

-- Python dict lookup: d.get(k) style search over an insertion-ordered
-- association list.
def pyDictFind {α β : Type} [DecidableEq α] : List (α × β) → α → Option β
  | [], _ => none
  | (k0, v0) :: rest, k => if k0 = k then some v0 else pyDictFind rest k

-- Python dict assignment d[k] = v: replaces the value in place when the key
-- is present, otherwise appends at the end (insertion order preserved).
def pyDictSet {α β : Type} [DecidableEq α] : List (α × β) → α → β → List (α × β)
  | [], k, v => [(k, v)]
  | (k0, v0) :: rest, k, v =>
      if k0 = k then (k0, v) :: rest else (k0, v0) :: pyDictSet rest k v

-- Python str.strip(): drop whitespace from both ends.
def pyStrip (s : String) : String :=
  String.mk (((s.data.dropWhile Char.isWhitespace).reverse.dropWhile Char.isWhitespace).reverse)

/-- Severity levels for improvement suggestions (class Severity). -/
inductive Severity where
  | info
  | warning
  | critical
deriving DecidableEq, Repr

/-- ImprovementPattern of quantum_analyzer.py: the compiled regex produced by
__post_init__ is abstracted as a Boolean matcher on lines, since re is an
external library; matchesLine wraps compiled_regex.search. -/
structure ImprovementPattern where
  regex : String
  matchesLine : String → Bool
  ideas : List String
  severity : Severity
  tags : List String

/-- CodeLine of quantum_analyzer.py: a matched line with its ideas. -/
structure CodeLine where
  line : String
  ideas : List String
  severity : Severity
  tags : List String
deriving DecidableEq, Repr

/-- CodeAnalyzer state after __init__: patterns, min_severity and the
normalised selected_tags (None when the argument was None or empty,
mirroring the truthiness test in __init__). -/
structure CodeAnalyzer where
  patterns : List ImprovementPattern
  minSeverity : Severity
  selectedTags : Option (List String)

/-- CodeAnalyzer.__init__: selected_tags is set to None unless a non-empty
list was supplied. -/
def mkCodeAnalyzer (patterns : List ImprovementPattern) (minSeverity : Severity)
    (selectedTags : Option (List String)) : CodeAnalyzer :=
  { patterns := patterns, minSeverity := minSeverity,
    selectedTags :=
      match selectedTags with
      | some tags => if tags.isEmpty then none else some tags
      | none => none }

/-- The severity_values table of CodeAnalyzer.__init__. -/
def severity_values : Severity → Nat
  | .info => 0
  | .warning => 1
  | .critical => 2

/-- CodeAnalyzer._should_include_pattern: severity threshold first, then the
tag filter (skipped when selected_tags is None). -/
def should_include_pattern (a : CodeAnalyzer) (p : ImprovementPattern) : Bool :=
  if severity_values p.severity < severity_values a.minSeverity then false
  else
    match a.selectedTags with
    | some tags => if p.tags.any (fun t => tags.contains t) then true else false
    | none => true

/-- CodeAnalyzer.analyze_line: strip the line, skip blank lines and comment
lines, then collect a CodeLine for every eligible matching pattern in
pattern order. -/
def analyze_line (a : CodeAnalyzer) (line : String) : List CodeLine :=
  let stripped := pyStrip line
  if stripped.data.isEmpty || stripped.data.head? = some '#' then []
  else
    a.patterns.filterMap fun p =>
      if should_include_pattern a p && p.matchesLine stripped then
        some { line := stripped, ideas := p.ideas, severity := p.severity, tags := p.tags }
      else none

/-- CodeAnalyzer.analyze_file: file reading is abstracted as readLines; the
error branch models the except clause and yields an empty result dict.
Lines are enumerated from 1 and only the first match per line is kept. -/
def analyze_file (readLines : String → Except String (List String))
    (a : CodeAnalyzer) (filePath : String) : List (Nat × CodeLine) :=
  match readLines filePath with
  | .error _ => []
  | .ok lines =>
      (List.enumFrom 1 lines).foldl (fun results lr =>
        match analyze_line a lr.2 with
        | [] => results
        | c :: _ => pyDictSet results lr.1 c) []

/-- The per-line dict value stored by AnalysisResults.add_file_results. -/
structure ResultEntry where
  line : String
  ideas : List String
  severity : Severity
  tags : List String
deriving DecidableEq, Repr

/-- AnalysisResults.results: a dict from file path to a dict from line
number to the stored entry. -/
abbrev AnalysisResults := List (String × List (Nat × ResultEntry))

/-- The dict literal built for each line inside add_file_results. -/
def resultEntry (c : CodeLine) : ResultEntry := ⟨c.line, c.ideas, c.severity, c.tags⟩

/-- AnalysisResults.add_file_results: returns early on an empty file result,
otherwise assigns results[str_path][line_num] = entry for every item, with
plain dict assignment semantics (defaultdict creates the inner dict). -/
def add_file_results (store : AnalysisResults) (filePath : String)
    (fileResults : List (Nat × CodeLine)) : AnalysisResults :=
  if fileResults.isEmpty then store
  else
    fileResults.foldl (fun st lc =>
      pyDictSet st filePath (pyDictSet ((pyDictFind st filePath).getD []) lc.1 (resultEntry lc.2))) store

/-- ProjectAnalyzer state: relative_to path arithmetic is external, so it is
kept as a function parameter. -/
structure ProjectAnalyzer where
  relativeTo : String → String
  codeAnalyzer : CodeAnalyzer

/-- ProjectAnalyzer.analyze_file_worker. -/
def analyze_file_worker (readLines : String → Except String (List String))
    (pa : ProjectAnalyzer) (filePath : String) : String × List (Nat × CodeLine) :=
  (pa.relativeTo filePath, analyze_file readLines pa.codeAnalyzer filePath)

/-- ProjectAnalyzer.analyze: the parallel branch models executor.map, which
yields worker results in the order of the input file list while the main
thread performs the add_file_results calls; the sequential branch is the
plain loop. -/
def project_analyze (readLines : String → Except String (List String))
    (pa : ProjectAnalyzer) (pythonFiles : List String) (parallel : Bool) : AnalysisResults :=
  if parallel then
    (pythonFiles.map (analyze_file_worker readLines pa)).foldl
      (fun st pr => add_file_results st pr.1 pr.2) []
  else
    pythonFiles.foldl (fun st filePath =>
      let pr := analyze_file_worker readLines pa filePath
      add_file_results st pr.1 pr.2) []

/-- The shape of one value of a parsed rule-definition document: a plain list
of ideas, a structured record (severity defaulting to info and tags to []
are already applied, mirroring dict.get), or any other YAML shape, which
load_from_yaml only logs and skips. -/
inductive PatternData where
  | ideasList (ideas : List String)
  | structured (severity : String) (tags : List String) (ideas : List String)
  | invalidFormat
deriving DecidableEq, Repr

/-- The Severity(value) enum constructor: unknown strings raise ValueError. -/
def severityOfString (s : String) : Except String Severity :=
  if s = "info" then .ok .info
  else if s = "warning" then .ok .warning
  else if s = "critical" then .ok .critical
  else .error ("\x27" ++ s ++ "\x27 is not a valid Severity")

/-- ImprovementPattern.__post_init__: regex compilation by the external re
library is abstracted as compile; a compile failure is the raised
ValueError. -/
def mkImprovementPattern (compile : String → Option (String → Bool))
    (regex : String) (ideas : List String) (severity : Severity) (tags : List String) :
    Except String ImprovementPattern :=
  match compile regex with
  | none => .error ("Invalid regex pattern " ++ "\x27" ++ regex ++ "\x27")
  | some m => .ok ⟨regex, m, ideas, severity, tags⟩

/-- One iteration of the load_from_yaml loop body; ok none models the
logger.warning branch for entries that are neither list nor dict. -/
def loadEntry (compile : String → Option (String → Bool)) (entry : String × PatternData) :
    Except String (Option ImprovementPattern) :=
  match entry.2 with
  | .ideasList ideas =>
      (mkImprovementPattern compile entry.1 ideas .info []).map some
  | .structured sevStr tags ideas =>
      match severityOfString sevStr with
      | .error e => .error e
      | .ok sev => (mkImprovementPattern compile entry.1 ideas sev tags).map some
  | .invalidFormat => .ok none

/-- The loop of load_from_yaml over data.items(): the first raised exception
aborts the whole loop (the try block wraps the entire loop). -/
def loadEntries (compile : String → Option (String → Bool)) :
    List (String × PatternData) → Except String (List ImprovementPattern)
  | [] => .ok []
  | entry :: rest =>
      match loadEntry compile entry with
      | .error e => .error e
      | .ok none => loadEntries compile rest
      | .ok (some p) => (loadEntries compile rest).map (fun ps => p :: ps)

/-- PatternLoader.load_from_yaml: doc is the outcome of open plus
yaml.safe_load (external); the surrounding try/except turns any failure of
the body, including a failure on a single entry, into an empty list. -/
def load_from_yaml (compile : String → Option (String → Bool))
    (doc : Except String (List (String × PatternData))) : List ImprovementPattern :=
  match doc with
  | .error _ => []
  | .ok entries =>
      match loadEntries compile entries with
      | .error _ => []
      | .ok ps => ps

/-- PatternLoader.load_multiple: extend the accumulator with each document
in order. -/
def load_multiple (compile : String → Option (String → Bool))
    (docs : List (Except String (List (String × PatternData)))) : List ImprovementPattern :=
  docs.foldl (fun acc doc => acc ++ load_from_yaml compile doc) []

mutual
/-- libcst expression nodes relevant to FormatToFString: names, simple string
literals (value is the full literal text including quotes and any prefix
letters), attribute access, calls, and formatted strings. -/
inductive Expr where
  | name (id : String)
  | simpleString (value : String)
  | attribute (value : Expr) (attr : String)
  | call (func : Expr) (args : List Arg)
  | formattedString (parts : List FSPart) (startDelim : String) (endDelim : String)

/-- A call argument: an optional keyword and the argument expression. -/
inductive Arg where
  | mk (keyword : Option String) (value : Expr)

/-- FormattedStringText and FormattedStringExpression parts. -/
inductive FSPart where
  | text (value : String)
  | expr (value : Expr)
end

/-- One span produced by the placeholder regex scan over the template:
either verbatim literal text between matches or a placeholder body. -/
inductive RawPart where
  | text (value : String)
  | placeholder (body : String)
deriving DecidableEq, Repr

def openBraceChar : Char := '\x7b'

def closeBraceChar : Char := '\x7d'

def flushText (acc : List Char) : List RawPart :=
  if acc.isEmpty then [] else [RawPart.text (String.mk acc)]

/-- Left-to-right scan equivalent to re.finditer over the placeholder regex
(an open brace, a run of non-brace characters, a close brace), together
with the literal-text bookkeeping of the loop in leave_Call: text between
matches is preserved verbatim and only non-empty text spans are emitted.
state is none while outside a candidate match and carries the body read so
far while inside one; a candidate that meets another open brace or the end
of the template fails and its characters become literal text, with the scan
restarting at the new open brace, exactly as regex backtracking does. -/
def scanAux (state : Option (List Char)) (tAcc : List Char) : List Char → List RawPart
  | [] =>
      match state with
      | none => flushText tAcc
      | some bAcc => flushText (tAcc ++ openBraceChar :: bAcc)
  | c :: rest =>
      match state with
      | none =>
          if c = openBraceChar then scanAux (some []) tAcc rest
          else scanAux none (tAcc ++ [c]) rest
      | some bAcc =>
          if c = closeBraceChar then
            flushText tAcc ++ (RawPart.placeholder (String.mk bAcc) :: scanAux none [] rest)
          else if c = openBraceChar then
            scanAux (some []) (tAcc ++ openBraceChar :: bAcc) rest
          else scanAux (some (bAcc ++ [c])) tAcc rest

def scanTemplate (t : String) : List RawPart := scanAux none [] t.data

/-- The partition of original_node.args into positional_args (in order) and
keyword_args (a dict, later duplicate keywords overriding earlier ones). -/
def splitArgs (args : List Arg) : List Expr × List (String × Expr) :=
  args.foldl (fun acc a =>
    match a with
    | .mk none v => (acc.1 ++ [v], acc.2)
    | .mk (some kw) v => (acc.1, pyDictSet acc.2 kw v)) ([], [])

/-- Python str.isdigit restricted to the decimal digits, which are the digit
placeholders the fixer handles. -/
def pyIsDigit (s : String) : Bool := !s.data.isEmpty && s.data.all Char.isDigit

/-- int() on an all-digit string. -/
def pyInt (s : String) : Nat :=
  s.data.foldl (fun n c => n * 10 + (c.toNat - Char.toNat '0')) 0

/-- Template extraction of leave_Call lines 28-32: exactly one character is
dropped from each end, but only when the literal text begins with a single
or double quote; prefixed literals fail the startswith test and are used
whole. -/
def stripQuotes (template : String) : String :=
  if template.data.head? = some '\x27' || template.data.head? = some '"' then
    (template.drop 1).dropRight 1
  else template

/-- The placeholder-resolution loop of leave_Call: an empty body consumes
the next positional argument (the cursor advances only on success), an
all-digit body indexes the positional list directly and is dropped when out
of range, and any other body is looked up among the keyword arguments and
dropped when missing. Text parts pass through verbatim. -/
def resolveParts (positional : List Expr) (keyword : List (String × Expr)) :
    List RawPart → Nat → List FSPart
  | [], _ => []
  | .text s :: rest, idx => .text s :: resolveParts positional keyword rest idx
  | .placeholder body :: rest, idx =>
      if body = "" then
        if h : idx < positional.length then
          .expr (positional.get ⟨idx, h⟩) :: resolveParts positional keyword rest (idx + 1)
        else resolveParts positional keyword rest idx
      else if pyIsDigit body then
        if h : pyInt body < positional.length then
          .expr (positional.get ⟨pyInt body, h⟩) :: resolveParts positional keyword rest idx
        else resolveParts positional keyword rest idx
      else
        match pyDictFind keyword body with
        | some e => .expr e :: resolveParts positional keyword rest idx
        | none => resolveParts positional keyword rest idx

/-- The replacement node built by leave_Call for a qualifying call: template
is the receiver literal text, args the original argument list; the result
is always delimited by the fixed pieces f-quote and quote. -/
def rewriteFormatCall (template : String) (args : List Arg) : Expr :=
  let t := stripQuotes template
  let pk := splitArgs args
  Expr.formattedString (resolveParts pk.1 pk.2 (scanTemplate t) 0) "f\"" "\""

mutual
/-- The CSTTransformer traversal with the leave_Call of FormatToFString:
children are visited first; a call whose func is an attribute access on a
simple string literal with attribute name format is replaced by the node
rewriteFormatCall builds from the ORIGINAL receiver and ORIGINAL arguments
(the source reads original_node, so child rewrites inside the arguments are
discarded), and the change counter is incremented once for it; every other
node is rebuilt from its transformed children. The Nat component is the
total of self.changes increments performed in the subtree. -/
def transformExpr : Expr → Expr × Nat
  | .name i => (.name i, 0)
  | .simpleString v => (.simpleString v, 0)
  | .attribute v a =>
      let r := transformExpr v
      (.attribute r.1 a, r.2)
  | .call f args =>
      let rf := transformExpr f
      let ra := transformArgList args
      match f with
      | .attribute (.simpleString v) attr =>
          if attr = "format" then
            (rewriteFormatCall v args, rf.2 + ra.2 + 1)
          else (.call rf.1 ra.1, rf.2 + ra.2)
      | _ => (.call rf.1 ra.1, rf.2 + ra.2)
  | .formattedString parts s e =>
      let rp := transformPartList parts
      (.formattedString rp.1 s e, rp.2)

def transformArgList : List Arg → List Arg × Nat
  | [] => ([], 0)
  | a :: rest =>
      let r1 := transformArg a
      let r2 := transformArgList rest
      (r1.1 :: r2.1, r1.2 + r2.2)

def transformArg : Arg → Arg × Nat
  | .mk k v =>
      let r := transformExpr v
      (.mk k r.1, r.2)

def transformPartList : List FSPart → List FSPart × Nat
  | [] => ([], 0)
  | p :: rest =>
      let r1 := transformPart p
      let r2 := transformPartList rest
      (r1.1 :: r2.1, r1.2 + r2.2)

def transformPart : FSPart → FSPart × Nat
  | .text s => (.text s, 0)
  | .expr e =>
      let r := transformExpr e
      (.expr r.1, r.2)
end

/-- A parsed module: the expressions contained in its statements. -/
abbrev PyModule := List Expr

def transformModule (m : PyModule) : PyModule × Nat :=
  m.foldr (fun e acc => let r := transformExpr e; (r.1 :: acc.1, r.2 + acc.2)) ([], 0)

mutual
/-- Code generation for the embedded nodes, mirroring the libcst code
property: literals print their stored text, formatted strings print their
delimiters around their parts, and expression parts are wrapped in
braces. -/
def exprCode : Expr → String
  | .name i => i
  | .simpleString v => v
  | .attribute v a => exprCode v ++ "." ++ a
  | .call f args => exprCode f ++ "(" ++ String.intercalate ", " (argListCode args) ++ ")"
  | .formattedString parts s e => s ++ partListCode parts ++ e

def argListCode : List Arg → List String
  | [] => []
  | a :: rest => argCode a :: argListCode rest

def argCode : Arg → String
  | .mk none v => exprCode v
  | .mk (some k) v => k ++ "=" ++ exprCode v

def partListCode : List FSPart → String
  | [] => ""
  | p :: rest => partCode p ++ partListCode rest

def partCode : FSPart → String
  | .text s => s
  | .expr e => "\x7b" ++ exprCode e ++ "\x7d"
end

def moduleCode (m : PyModule) : String := String.intercalate "\n" (m.map exprCode)

/-- FormatToFString.apply: cst.parse_module is external and supplied as a
parameter; the try/except returns the source unchanged with zero changes on
any parse failure. -/
def fixer_apply (parseModule : String → Option PyModule) (sourceCode : String) :
    String × Nat :=
  match parseModule sourceCode with
  | none => (sourceCode, 0)
  | some m =>
      let r := transformModule m
      (moduleCode r.1, r.2)

/-- The AVAILABLE_FIXERS registry of quantum_analyzer/fix/__init__.py, with
the one registered fixer given by its apply function. -/
def AVAILABLE_FIXERS (formatToFStringApply : String → String × Nat) :
    List (String × (String → String × Nat)) :=
  [("format_to_fstring", formatToFStringApply)]

/-- get_fixer: a missing name raises ValueError with a message naming the
requested identifier and the comma-joined known identifiers. -/
def get_fixer (formatToFStringApply : String → String × Nat) (fixerName : String) :
    Except String (String → String × Nat) :=
  match pyDictFind (AVAILABLE_FIXERS formatToFStringApply) fixerName with
  | none =>
      .error ("Fixer " ++ fixerName ++ " not found. Available fixers: " ++
        String.intercalate ", " ((AVAILABLE_FIXERS formatToFStringApply).map Prod.fst))
  | some fixer => .ok fixer

/-- The outcome of apply_fixes: the returned count and the content written
back, if any write happened. -/
structure ApplyFixesOutcome where
  fixesApplied : Nat
  written : Option String
deriving DecidableEq, Repr

/-- One iteration of the fixer loop in apply_fixes: the except clause
swallows the ValueError from get_fixer, leaving content and count
unchanged; a successful fixer updates the content only when it reports a
positive change count. -/
def applyFixesStep (formatToFStringApply : String → String × Nat)
    (state : String × Nat) (fixerName : String) : String × Nat :=
  match get_fixer formatToFStringApply fixerName with
  | .error _ => state
  | .ok fixer =>
      let r := fixer state.1
      if 0 < r.2 then (r.1, state.2 + r.2) else (state.1, state.2)

/-- apply_fixes of quantum_analyzer/fix/__init__.py: non-py paths and read
failures return zero immediately; the fixer loop never lets an exception
escape; the file is written only when the total is positive, and a write
failure returns zero. The Except result type records whether any exception
propagates to the caller; since every raise in the source is caught, no
code path produces the error constructor. -/
def apply_fixes (formatToFStringApply : String → String × Nat)
    (readText : String → Except String String) (writeOk : Bool)
    (filePath : String) (fixers : List String) : Except String ApplyFixesOutcome :=
  if !(".py".data.isSuffixOf filePath.data) then .ok ⟨0, none⟩
  else
    match readText filePath with
    | .error _ => .ok ⟨0, none⟩
    | .ok content =>
        let r := fixers.foldl (applyFixesStep formatToFStringApply) (content, 0)
        if 0 < r.2 then
          if writeOk then .ok ⟨r.2, some r.1⟩ else .ok ⟨0, none⟩
        else .ok ⟨r.2, none⟩

-- Concrete data used by witnesses and counterexamples.

def patternCritical : ImprovementPattern :=
  { regex := "import random", matchesLine := fun _ => true,
    ideas := ["Use a safer RNG"], severity := .critical, tags := [] }

def analyzerCritical : CodeAnalyzer := mkCodeAnalyzer [patternCritical] .critical none

def codeLineCritical : CodeLine :=
  { line := "import random", ideas := ["Use a safer RNG"], severity := .critical, tags := [] }

def codeLineA : CodeLine :=
  { line := "import random", ideas := ["first idea"], severity := .info, tags := [] }

def codeLineB : CodeLine :=
  { line := "import random", ideas := ["second idea"], severity := .warning, tags := [] }

def readLinesC8 : String → Except String (List String) := fun p =>
  if p = "bad.py" then .error "boom" else .ok ["import random"]

def projectAnalyzerC8 : ProjectAnalyzer :=
  { relativeTo := fun p => p, codeAnalyzer := mkCodeAnalyzer [patternCritical] .info none }

def compileAll : String → Option (String → Bool) := fun _ => some (fun _ => false)

def docEntryGoodA : String × PatternData := ("regexA", PatternData.ideasList ["idea A"])

def docEntryBad : String × PatternData := ("regexB", PatternData.structured "fatal" [] ["idea B"])

def docEntryGoodC : String × PatternData := ("regexC", PatternData.ideasList ["idea C"])

def parseNoneFn : String → Option PyModule := fun _ => none

def readTextC5 : String → Except String String := fun _ => .ok "x = 1"

def innerCallC2 : Expr :=
  .call (.attribute (.simpleString "\x27\x7b\x7d\x27") "format") [.mk none (.name "x")]

def outerCallC2 : Expr :=
  .call (.attribute (.simpleString "\"\x7b\x7d\"") "format") [.mk none innerCallC2]

def fstringC2 : Expr := Expr.formattedString [FSPart.expr innerCallC2] "f\"" "\""

/-- The relevant fragment of the libcst parser: it maps the two source texts
arising in the C2 run to the trees libcst would produce for them, namely
the original nested format call and the formatted string that still
contains the inner format call. -/
def parseC2 : String → Option PyModule := fun s =>
  if s = moduleCode [outerCallC2] then some [outerCallC2]
  else if s = moduleCode [fstringC2] then some [fstringC2]
  else none

def srcC2 : String := moduleCode [outerCallC2]

def rawReceiverC10 : String := "r\"\x7b0\x7d\""

-- Helper lemmas shared by the claim theorems.

theorem pyDictFind_pyDictSet_self {α β : Type} [DecidableEq α]
    (d : List (α × β)) (k : α) (v : β) :
    pyDictFind (pyDictSet d k v) k = some v := by
  induction d with
  | nil => simp [pyDictSet, pyDictFind]
  | cons hd tl ih =>
      obtain ⟨k0, v0⟩ := hd
      by_cases h : k0 = k
      · simp [pyDictSet, pyDictFind, h]
      · simp [pyDictSet, pyDictFind, h, ih]

theorem add_file_results_nil (store : AnalysisResults) (filePath : String) :
    add_file_results store filePath [] = store := by
  simp [add_file_results]

theorem add_file_results_single (store : AnalysisResults) (filePath : String)
    (n : Nat) (c : CodeLine) :
    add_file_results store filePath [(n, c)] =
      pyDictSet store filePath
        (pyDictSet ((pyDictFind store filePath).getD []) n (resultEntry c)) := by
  simp [add_file_results]

theorem project_analyze_eq_foldl (readLines : String → Except String (List String))
    (pa : ProjectAnalyzer) (pythonFiles : List String) (parallel : Bool) :
    project_analyze readLines pa pythonFiles parallel =
      pythonFiles.foldl (fun st filePath =>
        add_file_results st (pa.relativeTo filePath)
          (analyze_file readLines pa.codeAnalyzer filePath)) [] := by
  cases parallel <;> simp [project_analyze, analyze_file_worker, List.foldl_map]

theorem loadEntries_error_of_mem (compile : String → Option (String → Bool))
    (entries : List (String × PatternData)) (d : String × PatternData) (e : String)
    (hd : d ∈ entries) (he : loadEntry compile d = .error e) :
    ∃ msg, loadEntries compile entries = .error msg := by
  induction entries with
  | nil => cases hd
  | cons hd0 tl ih =>
      rcases List.mem_cons.mp hd with rfl | hmem
      · exact ⟨e, by simp [loadEntries, he]⟩
      · cases h0 : loadEntry compile hd0 with
        | error e0 => exact ⟨e0, by simp [loadEntries, h0]⟩
        | ok po =>
            obtain ⟨msg, hmsg⟩ := ih hmem
            cases po with
            | none => exact ⟨msg, by simp [loadEntries, h0, hmsg]⟩
            | some p => exact ⟨msg, by simp [loadEntries, h0, hmsg, Except.map]⟩

-- Claim theorems.

/-- C1 counterexample: insertion into the result store is NOT a no-op for an
already-present (path, line): after adding codeLineA and then codeLineB at
line 3 of the same path, the stored entry is the second one, which differs
from the first, so the first Match is not retained. -/
theorem C1_add_overwrites_counterexample :
    pyDictFind ((pyDictFind (add_file_results (add_file_results [] "app.py" [(3, codeLineA)])
        "app.py" [(3, codeLineB)]) "app.py").getD []) 3 = some (resultEntry codeLineB) ∧
    resultEntry codeLineB ≠ resultEntry codeLineA := by
  refine ⟨by decide, by decide⟩

/-- C1 amended: insertion into the result store is last-wins for every store,
path and line number: after two add attempts for the same (path, line) the
SECOND CodeLine is the one retained, by plain dict assignment. -/
theorem C1_add_last_wins (store : AnalysisResults) (path : String) (n : Nat)
    (c1 c2 : CodeLine) :
    pyDictFind ((pyDictFind (add_file_results (add_file_results store path [(n, c1)])
        path [(n, c2)]) path).getD []) n = some (resultEntry c2) := by
  rw [add_file_results_single, add_file_results_single]
  rw [pyDictFind_pyDictSet_self]
  simp only [Option.getD_some]
  rw [pyDictFind_pyDictSet_self]

/-- C2 (code bug): applying the rewrite engine to the output of a first
application does not always report zero changes. On the nested source
srcC2, which prints as a double-quoted empty-placeholder format call whose
single argument is itself a single-quoted format call on x, the first apply
reports 2 changes but splices the ORIGINAL inner call into the produced
interpolated string, so a second apply on the produced text reports 1
further change instead of the required 0. -/
theorem C2_second_apply_reports_changes :
    (fixer_apply parseC2 srcC2).1 = "f\"\x7b\x27\x7b\x7d\x27.format(x)\x7d\"" ∧
    (fixer_apply parseC2 srcC2).2 = 2 ∧
    (fixer_apply parseC2 (fixer_apply parseC2 srcC2).1).2 = 1 := by
  refine ⟨by decide, by decide, by decide⟩

/-- C3: severity threshold filtering is sound: every CodeLine returned by
analyze_line has severity rank at least the configured minimum rank, and in
particular a configuration with min_severity critical never returns a match
whose severity is info or warning. -/
theorem C3_min_severity_sound (a : CodeAnalyzer) (line : String) (c : CodeLine)
    (hc : c ∈ analyze_line a line) :
    severity_values a.minSeverity ≤ severity_values c.severity ∧
    (a.minSeverity = Severity.critical →
      c.severity ≠ Severity.info ∧ c.severity ≠ Severity.warning) := by
  simp only [analyze_line] at hc
  split at hc
  · exact absurd hc (List.not_mem_nil c)
  · rcases List.mem_filterMap.mp hc with ⟨p, hp, hpc⟩
    split at hpc
    next hcond =>
      rw [Bool.and_eq_true] at hcond
      obtain ⟨hinc, _⟩ := hcond
      have hcef := Option.some.inj hpc
      have hsev : c.severity = p.severity := by rw [← hcef]
      have hle : severity_values a.minSeverity ≤ severity_values p.severity := by
        by_contra hlt
        push_neg at hlt
        rw [should_include_pattern, if_pos hlt] at hinc
        exact Bool.false_ne_true hinc
      have hcle : severity_values a.minSeverity ≤ severity_values c.severity := by
        rw [hsev]; exact hle
      refine ⟨hcle, fun hcrit => ?_⟩
      rw [hcrit] at hcle
      cases hcs : c.severity with
      | info => rw [hcs] at hcle; simp [severity_values] at hcle
      | warning => rw [hcs] at hcle; simp [severity_values] at hcle
      | critical => exact ⟨by decide, by decide⟩
    next =>
      exact Option.noConfusion hpc

/-- C3 witness: a concrete analyzer configured with a critical-only threshold
returns the critical CodeLine for a matching line. -/
theorem C3_min_severity_sound_witness :
    codeLineCritical ∈ analyze_line analyzerCritical "import random" ∧
    (severity_values analyzerCritical.minSeverity ≤ severity_values codeLineCritical.severity ∧
      (analyzerCritical.minSeverity = Severity.critical →
        codeLineCritical.severity ≠ Severity.info ∧
          codeLineCritical.severity ≠ Severity.warning)) :=
  ⟨by decide, C3_min_severity_sound analyzerCritical "import random" codeLineCritical (by decide)⟩

/-- C4: for every fixed file set and read function, a sequential scan and a
parallel scan produce identical result-store content, hence any
serialisation function, in particular JSON rendering, produces byte-equal
output on the two stores. -/
theorem C4_parallel_sequential_equivalent (readLines : String → Except String (List String))
    (pa : ProjectAnalyzer) (pythonFiles : List String) :
    project_analyze readLines pa pythonFiles true = project_analyze readLines pa pythonFiles false ∧
    ∀ serializeJson : AnalysisResults → String,
      serializeJson (project_analyze readLines pa pythonFiles true) =
        serializeJson (project_analyze readLines pa pythonFiles false) := by
  have h : project_analyze readLines pa pythonFiles true =
      project_analyze readLines pa pythonFiles false :=
    (project_analyze_eq_foldl readLines pa pythonFiles true).trans
      (project_analyze_eq_foldl readLines pa pythonFiles false).symm
  exact ⟨h, fun serializeJson => by rw [h]⟩

/-- C5 counterexample: with an unknown fixer identifier, apply_fixes does not
fail: the ValueError raised by get_fixer is caught inside the loop, and the
invocation returns normally with zero fixes and no write, so no NotFound
error reaches the caller. -/
theorem C5_no_exception_counterexample :
    apply_fixes (fixer_apply parseNoneFn) readTextC5 true "a.py" ["nope"] =
      Except.ok ⟨0, none⟩ ∧
    ¬ ∃ e, apply_fixes (fixer_apply parseNoneFn) readTextC5 true "a.py" ["nope"] =
      Except.error e := by
  refine ⟨rfl, ?_⟩
  rintro ⟨e, he⟩
  rw [show apply_fixes (fixer_apply parseNoneFn) readTextC5 true "a.py" ["nope"] =
    Except.ok ⟨0, none⟩ from rfl] at he
  exact Except.noConfusion he

/-- C5 amended: for every unknown fixer identifier, get_fixer raises a
ValueError whose message names the requested identifier and the known
identifiers, and apply_fixes catches it: the loop step leaves the content
and the fix count unchanged for that fixer and the invocation continues
instead of failing. -/
theorem C5_unknown_fixer_skipped (formatToFStringApply : String → String × Nat)
    (fixerName : String) (state : String × Nat)
    (h : pyDictFind (AVAILABLE_FIXERS formatToFStringApply) fixerName = none) :
    get_fixer formatToFStringApply fixerName =
      Except.error ("Fixer " ++ fixerName ++ " not found. Available fixers: " ++
        "format_to_fstring") ∧
    applyFixesStep formatToFStringApply state fixerName = state := by
  have hmsg : String.intercalate ", "
      ((AVAILABLE_FIXERS formatToFStringApply).map Prod.fst) = "format_to_fstring" := rfl
  constructor
  · rw [get_fixer, h, hmsg]
  · rw [applyFixesStep, get_fixer, h]

/-- C5 witness: the unknown identifier nope is rejected with the expected
message and its loop step is the identity on the running state. -/
theorem C5_unknown_fixer_skipped_witness :
    pyDictFind (AVAILABLE_FIXERS (fixer_apply parseNoneFn)) "nope" = none ∧
    (get_fixer (fixer_apply parseNoneFn) "nope" =
        Except.error ("Fixer " ++ "nope" ++ " not found. Available fixers: " ++
          "format_to_fstring") ∧
      applyFixesStep (fixer_apply parseNoneFn) ("x = 1", 0) "nope" = ("x = 1", 0)) :=
  ⟨rfl, C5_unknown_fixer_skipped (fixer_apply parseNoneFn) "nope" ("x = 1", 0) rfl⟩

/-- C6 counterexample: a document with a well-formed entry, then an entry
with the unknown severity fatal, then another well-formed entry loads as
the empty pattern list: the single malformed entry drops the WHOLE
document, not only itself, so loading does not continue for the remaining
entries of that document. -/
theorem C6_whole_document_dropped_counterexample :
    (load_from_yaml compileAll (Except.ok [docEntryGoodA, docEntryBad, docEntryGoodC])).map
      (fun p => p.regex) = [] ∧
    ([] : List String) ≠ ["regexA", "regexC"] := by
  refine ⟨rfl, by decide⟩

/-- C6 amended: a malformed entry (invalid regex or unknown severity string)
raises a ValueError that aborts loading of its entire document, which then
contributes zero patterns; loading continues unaffected for the remaining
rule-definition documents. -/
theorem C6_malformed_entry_drops_document (compile : String → Option (String → Bool))
    (entries : List (String × PatternData)) (d : String × PatternData) (e : String)
    (docs : List (Except String (List (String × PatternData))))
    (hd : d ∈ entries) (he : loadEntry compile d = .error e) :
    load_from_yaml compile (.ok entries) = [] ∧
    load_multiple compile (Except.ok entries :: docs) = load_multiple compile docs := by
  obtain ⟨msg, hmsg⟩ := loadEntries_error_of_mem compile entries d e hd he
  have h1 : load_from_yaml compile (.ok entries) = [] := by
    simp [load_from_yaml, hmsg]
  refine ⟨h1, ?_⟩
  simp [load_multiple, h1]

/-- C6 witness: the concrete document with the fatal severity entry loads as
empty while a following document is unaffected. -/
theorem C6_malformed_entry_drops_document_witness :
    docEntryBad ∈ [docEntryGoodA, docEntryBad, docEntryGoodC] ∧
    loadEntry compileAll docEntryBad = Except.error "\x27fatal\x27 is not a valid Severity" ∧
    (load_from_yaml compileAll (.ok [docEntryGoodA, docEntryBad, docEntryGoodC]) = [] ∧
      load_multiple compileAll
          (Except.ok [docEntryGoodA, docEntryBad, docEntryGoodC] :: [Except.ok [docEntryGoodC]]) =
        load_multiple compileAll [Except.ok [docEntryGoodC]]) :=
  ⟨by decide, rfl,
    C6_malformed_entry_drops_document compileAll [docEntryGoodA, docEntryBad, docEntryGoodC]
      docEntryBad "\x27fatal\x27 is not a valid Severity" [Except.ok [docEntryGoodC]]
      (by decide) rfl⟩

/-- C7: for every source text on which parsing fails, the rewrite engine
returns the original text unchanged with a change count of zero, and no
exception surfaces (fixer_apply is a total function). -/
theorem C7_parse_failure_returns_unchanged (parseModule : String → Option PyModule)
    (sourceCode : String) (h : parseModule sourceCode = none) :
    fixer_apply parseModule sourceCode = (sourceCode, 0) := by
  simp [fixer_apply, h]

/-- C7 witness: a parser that rejects the input makes apply return the input
with zero changes. -/
theorem C7_parse_failure_returns_unchanged_witness :
    parseNoneFn "def broken(:" = none ∧
    fixer_apply parseNoneFn "def broken(:" = ("def broken(:", 0) :=
  ⟨rfl, C7_parse_failure_returns_unchanged parseNoneFn "def broken(:" rfl⟩

/-- C8: per-file scan failures are isolated: a file whose read fails
contributes an empty file result, and the project scan over any file list
containing it, sequential or parallel, equals the scan over the list with
that file removed, so the results of all other files still appear and the
failure never aborts the scan. -/
theorem C8_per_file_failure_isolated (readLines : String → Except String (List String))
    (pa : ProjectAnalyzer) (xs ys : List String) (badFile e : String)
    (h : readLines badFile = .error e) (parallel : Bool) :
    analyze_file readLines pa.codeAnalyzer badFile = [] ∧
    project_analyze readLines pa (xs ++ badFile :: ys) parallel =
      project_analyze readLines pa (xs ++ ys) parallel := by
  have hfile : analyze_file readLines pa.codeAnalyzer badFile = [] := by
    simp [analyze_file, h]
  refine ⟨hfile, ?_⟩
  rw [project_analyze_eq_foldl, project_analyze_eq_foldl]
  simp only [List.foldl_append, List.foldl_cons]
  rw [hfile, add_file_results_nil]

/-- C8 witness: with a read function failing on bad.py, scanning good1.py,
bad.py, good2.py gives the same store as scanning good1.py, good2.py. -/
theorem C8_per_file_failure_isolated_witness :
    readLinesC8 "bad.py" = Except.error "boom" ∧
    (analyze_file readLinesC8 projectAnalyzerC8.codeAnalyzer "bad.py" = [] ∧
      project_analyze readLinesC8 projectAnalyzerC8 (["good1.py"] ++ "bad.py" :: ["good2.py"]) true =
        project_analyze readLinesC8 projectAnalyzerC8 (["good1.py"] ++ ["good2.py"]) true) :=
  ⟨rfl, C8_per_file_failure_isolated readLinesC8 projectAnalyzerC8 ["good1.py"] ["good2.py"]
    "bad.py" "boom" rfl true⟩

/-- C9: indexed placeholder resolution: a placeholder whose body is all
digits resolves to the positional argument at that literal index when it is
in range, and collapses to nothing when out of range, without error; and
the concrete template with placeholders 0, 1, 0 over positional arguments
a, b yields parts referencing a, b, a in that order. -/
theorem C9_indexed_placeholder_resolution (body : String) (rest : List RawPart)
    (positional : List Expr) (keyword : List (String × Expr)) (idx : Nat) (a b : Expr)
    (hdig : pyIsDigit body = true) :
    (resolveParts positional keyword (RawPart.placeholder body :: rest) idx =
      if h : pyInt body < positional.length then
        FSPart.expr (positional.get ⟨pyInt body, h⟩) ::
          resolveParts positional keyword rest idx
      else resolveParts positional keyword rest idx) ∧
    rewriteFormatCall "\"\x7b0\x7d \x7b1\x7d \x7b0\x7d\"" [Arg.mk none a, Arg.mk none b] =
      Expr.formattedString
        [FSPart.expr a, FSPart.text " ", FSPart.expr b, FSPart.text " ", FSPart.expr a]
        "f\"" "\"" := by
  constructor
  · have hne : ¬ body = "" := by
      intro hb
      rw [hb] at hdig
      simp [pyIsDigit] at hdig
    simp [resolveParts, hne, hdig]
  · rfl

/-- C9 witness: the placeholder with body 1 over two positional arguments
resolves to the second argument, and the concrete template evaluates to the
a, b, a part list. -/
theorem C9_indexed_placeholder_resolution_witness :
    pyIsDigit "1" = true ∧
    ((resolveParts [Expr.name "a", Expr.name "b"] [] [RawPart.placeholder "1"] 0 =
      if h : pyInt "1" < [Expr.name "a", Expr.name "b"].length then
        FSPart.expr ([Expr.name "a", Expr.name "b"].get ⟨pyInt "1", h⟩) ::
          resolveParts [Expr.name "a", Expr.name "b"] [] [] 0
      else resolveParts [Expr.name "a", Expr.name "b"] [] [] 0) ∧
    rewriteFormatCall "\"\x7b0\x7d \x7b1\x7d \x7b0\x7d\""
        [Arg.mk none (Expr.name "a"), Arg.mk none (Expr.name "b")] =
      Expr.formattedString
        [FSPart.expr (Expr.name "a"), FSPart.text " ", FSPart.expr (Expr.name "b"),
          FSPart.text " ", FSPart.expr (Expr.name "a")]
        "f\"" "\"") :=
  ⟨by decide, C9_indexed_placeholder_resolution "1" [] [Expr.name "a", Expr.name "b"] [] 0
    (Expr.name "a") (Expr.name "b") (by decide)⟩

/-- C10 counterexample: for the r-prefixed receiver literal, no character at
all is stripped (the literal does not begin with a quote), so it is false
that exactly one leading and one trailing character are stripped from every
rewritten receiver: the prefix and quote characters survive as literal text
in the produced node. -/
theorem C10_prefixed_literal_counterexample :
    stripQuotes rawReceiverC10 = rawReceiverC10 ∧
    (rawReceiverC10.drop 1).dropRight 1 ≠ rawReceiverC10 ∧
    rewriteFormatCall rawReceiverC10 [Arg.mk none (Expr.name "x")] =
      Expr.formattedString
        [FSPart.text "r\"", FSPart.expr (Expr.name "x"), FSPart.text "\""]
        "f\"" "\"" := by
  refine ⟨by decide, by decide, rfl⟩

/-- C10 amended: every rewritten format call produces a node delimited by the
fixed pieces f-quote and quote regardless of the receiver quoting, with the
template obtained by dropping exactly one character from each end when the
receiver literal begins with a single or double quote and taken whole
otherwise; consequently a single-quoted receiver does not round-trip its
quote style, as the concrete instance shows. -/
theorem C10_delimiters_and_stripping (v : String) (args : List Arg) :
    rewriteFormatCall v args =
      Expr.formattedString
        (resolveParts (splitArgs args).1 (splitArgs args).2
          (scanTemplate (if v.data.head? = some '\x27' || v.data.head? = some '"' then
            (v.drop 1).dropRight 1 else v)) 0)
        "f\"" "\"" ∧
    rewriteFormatCall "\x27hi \x7b0\x7d\x27" [Arg.mk none (Expr.name "x")] =
      Expr.formattedString [FSPart.text "hi ", FSPart.expr (Expr.name "x")] "f\"" "\"" := by
  exact ⟨by simp [rewriteFormatCall, stripQuotes], rfl⟩
